import Mathlib

/-!
Shallow embedding of `streamlit_app.py` (NOAA OISST sea-surface-temperature
viewer) and proofs about its orchestration logic.

The program is glue code over external libraries.  We embed the logic the
repository itself contains: the yearly URL derivation, the two-engine open
fallback, the slice materialization with the all-missing check, the
memoization wrapper, the renderer precondition and its fixed color
normalization, and the main page branching.  External collaborators
(`xarray` datasets, the network) are modelled as an explicit environment of
fallible operations; floating point temperature values are modelled as
exact integers plus a distinguished missing-data (NaN) marker, since the
code only ever inspects NaN-ness of values.
-/

set_option autoImplicit false

namespace SstApp

/-! ## Calendar dates (embedding `datetime.date`) -/

/-- Embedding of a Python `datetime.date` value: a (year, month, day) triple. -/
structure PyDate where
  year : Int
  month : Int
  day : Int
deriving DecidableEq, Repr

/-- Gregorian leap-year test, as in `datetime`. -/
def isLeap (y : Int) : Bool :=
  y % 4 == 0 && (y % 100 != 0 || y % 400 == 0)

/-- Days in the given month of the given year (`_DAYS_IN_MONTH` of CPython). -/
def daysInMonth (y m : Int) : Int :=
  if m = 2 then (if isLeap y then 29 else 28)
  else if m = 4 ∨ m = 6 ∨ m = 9 ∨ m = 11 then 30
  else 31

/-- Cumulative days before each month in a non-leap year
(`_DAYS_BEFORE_MONTH` of CPython; index 0 unused). -/
def daysBeforeMonthTable : List Int :=
  [0, 0, 31, 59, 90, 120, 151, 181, 212, 243, 273, 304, 334]

/-- Days in year `y` strictly before month `m`, leap-adjusted. -/
def daysBeforeMonth (y m : Int) : Int :=
  daysBeforeMonthTable.getD m.toNat 0 + (if 2 < m ∧ isLeap y then 1 else 0)

/-- Days before January 1 of year `y` in the proleptic Gregorian calendar
(`_days_before_year` of CPython). -/
def daysBeforeYear (y : Int) : Int :=
  let py := y - 1
  py * 365 + py / 4 - py / 100 + py / 400

/-- Embedding of `datetime.date.toordinal`: day number with 0001-01-01 as day 1. -/
def toordinal (d : PyDate) : Int :=
  daysBeforeYear d.year + daysBeforeMonth d.year d.month + d.day

/-- Embedding of `datetime.date.fromordinal` (`_ord2ymd` of CPython). -/
def fromordinal (n0 : Int) : PyDate :=
  let n := n0 - 1
  let n400 := n / 146097
  let r400 := n % 146097
  let n100 := r400 / 36524
  let r100 := r400 % 36524
  let n4 := r100 / 1461
  let r4 := r100 % 1461
  let n1 := r4 / 365
  let r1 := r4 % 365
  let year := n400 * 400 + 1 + n100 * 100 + n4 * 4 + n1
  if n1 = 4 ∨ n100 = 4 then
    ⟨year - 1, 12, 31⟩
  else
    let month := (r1 + 50) / 32
    let preceding := daysBeforeMonth year month
    if r1 < preceding then
      ⟨year, month - 1, r1 - (preceding - daysInMonth year (month - 1)) + 1⟩
    else
      ⟨year, month, r1 - preceding + 1⟩

/-- Embedding of `d - datetime.timedelta(days=k)`. -/
def dateSub (d : PyDate) (k : Int) : PyDate :=
  fromordinal (toordinal d - k)

/-- Embedding of `selected_date.strftime("%Y-%m-%d")` (zero-padded fields). -/
def pad2 (n : Int) : String :=
  if n < 10 then "0" ++ toString n else toString n

/-- The `date_str` key used to select the requested day from the dataset. -/
def dateStr (d : PyDate) : String :=
  toString d.year ++ "-" ++ pad2 d.month ++ "-" ++ pad2 d.day

/-! ## Materialized slice values -/

/-- One grid-cell value of the materialized SST slice: either the
missing-data marker (NaN) or an actual temperature reading.  The program
never computes with the numeric magnitude, it only tests NaN-ness, so the
float payload is modelled exactly. -/
inductive Val where
  | nan : Val
  | num : Int → Val
deriving DecidableEq, Repr

/-- Whether a cell holds the missing-data marker (`np.isnan`). -/
def Val.isNaN : Val → Bool
  | .nan => true
  | .num _ => false

/-- The materialized 2-D slice, flattened to its cell values; `size` in the
source corresponds to list length here. -/
abbrev SstSlice := List Val

/-- Embedding of `np.all(np.isnan(da.values))`.  Note `np.all` of an empty
array is `True`, matching `List.all` on `[]`. -/
def allNaN (s : SstSlice) : Bool :=
  s.all Val.isNaN

/-! ## External environment: the remote dataset service -/

/-- The two alternate transport engines: the default engine of
`xr.open_dataset` (netCDF4 and friends) tried first, then `pydap`. -/
inductive Engine where
  | primary : Engine
  | pydap : Engine
deriving DecidableEq, Repr

/-- A lazily selected sub-array (`ds["sst"].sel(...).squeeze()`): calling
`.load()` forces the transfer and may raise. -/
structure PendingSlice where
  load : Except String SstSlice

/-- An opened remote dataset: selecting the SST variable and slicing it for
a given date key may raise. -/
structure Dataset where
  sel : String → Except String PendingSlice

/-- The external world a pipeline run interacts with: opening a URL with a
given engine either yields a dataset or raises. -/
structure Env where
  openDS : String → Engine → Except String Dataset

/-! ## Data loader (embedding `load_and_slice_data`) -/

/-- Embedding of `BASE_URL.format(year=year)` (the yearly OPeNDAP URL
template of line 40). -/
def BASE_URL (year : Int) : String :=
  "https://psl.noaa.gov/thredds/dodsC/Datasets/noaa.oisst.v2.highres/sst.day.mean."
    ++ toString year ++ ".nc"

/-- Embedding of the nested try/except around `xr.open_dataset`: first the
default engine, on any failure one retry with `engine="pydap"`.  Also
records the list of attempted engines, in order. -/
def openWithFallback (env : Env) (url : String) :
    Except String Dataset × List Engine :=
  match env.openDS url Engine.primary with
  | .ok ds => (.ok ds, [Engine.primary])
  | .error _ =>
    match env.openDS url Engine.pydap with
    | .ok ds => (.ok ds, [Engine.primary, Engine.pydap])
    | .error e => (.error e, [Engine.primary, Engine.pydap])

/-- The fallible body of the try-block: open (with fallback), select the
variable and slice for the requested date, then materialize the values. -/
def fetch_slice (env : Env) (d : PyDate) : Except String SstSlice := do
  let ds ← (openWithFallback env (BASE_URL d.year)).1
  let da ← ds.sel (dateStr d)
  da.load

/-- Text of the error banner `st.error(f"데이터를 불러오는 중 오류가 발생했습니다: ...")`
for an exception description `e`. -/
def errorBannerText (e : String) : String :=
  "데이터를 불러오는 중 오류가 발생했습니다: " ++ e

/-- Text of the accompanying `st.info` hint about networks, SSL and engines. -/
def infoBannerText : String :=
  "연도별 파일만 제공됩니다. 네트워크(방화벽/SSL) 또는 엔진(pydap, netCDF4) 설치 문제일 수 있어요."

/-- The observable outcome of one (uncached) run of `load_and_slice_data`:
the returned value (`none` is the Python `None`, i.e. Absent), which
banners were emitted, the derived URL, and which engines were tried. -/
structure LoadResult where
  url : String
  attempts : List Engine
  value : Option SstSlice
  errorBanner : Option String
  infoBanner : Option String
deriving DecidableEq, Repr

/-- Embedding of `load_and_slice_data` (lines 44-81): derive the yearly
URL, fetch and materialize the slice with the engine fallback, return
Absent for an all-NaN slice, and on any exception emit the error and info
banners and return Absent. -/
def load_and_slice_data (env : Env) (selected_date : PyDate) : LoadResult :=
  let data_url := BASE_URL selected_date.year
  let att := (openWithFallback env data_url).2
  match fetch_slice env selected_date with
  | .ok da =>
    if allNaN da then
      { url := data_url, attempts := att, value := none,
        errorBanner := none, infoBanner := none }
    else
      { url := data_url, attempts := att, value := some da,
        errorBanner := none, infoBanner := none }
  | .error e =>
    { url := data_url, attempts := att, value := none,
      errorBanner := some (errorBannerText e), infoBanner := some infoBannerText }

/-! ## Memoization (embedding the `@st.cache_data` wrapper) -/

/-- The session cache behind `@st.cache_data`: keyed by the argument value
(the selected date), holding the returned value (`Option SstSlice`). -/
abbrev Cache := List (PyDate × Option SstSlice)

/-- Lookup of a date key in the session cache. -/
def cacheLookup : Cache → PyDate → Option (Option SstSlice)
  | [], _ => none
  | (k, v) :: rest, d => if k = d then some v else cacheLookup rest d

/-- Outcome of one call through the cached wrapper: the observable result,
the cache afterwards, and whether the body (the remote fetch) actually ran. -/
structure CachedCall where
  result : LoadResult
  cache : Cache
  fetched : Bool
deriving DecidableEq, Repr

/-- Embedding of the `@st.cache_data` wrapper around `load_and_slice_data`:
on a hit the stored return value is served and the body does not run (so no
engines are attempted); on a miss the body runs once and its return value
is stored under the date key.  `st.cache_data` has no TTL and no entry
limit here (neither argument is passed), so nothing is ever evicted.
Widget replay on cache hits is outside the model; the claims under proof
concern the returned value and the fetch count. -/
def cached_load (env : Env) (c : Cache) (d : PyDate) : CachedCall :=
  match cacheLookup c d with
  | some v =>
    { result := { url := BASE_URL d.year, attempts := [], value := v,
                  errorBanner := none, infoBanner := none },
      cache := c, fetched := false }
  | none =>
    let r := load_and_slice_data env d
    { result := r, cache := (d, r.value) :: c, fetched := true }

/-- A session is a sequence of page runs, each with its own environment
state (the remote service may fail at one moment and recover at another)
and requested date, threaded through the one session cache. -/
def run_session : List (Env × PyDate) → Cache → List (PyDate × CachedCall)
  | [], _ => []
  | (env, d) :: rest, c =>
    let r := cached_load env c d
    (d, r) :: run_session rest r.cache

/-! ## Map renderer (embedding `create_map_figure`) -/

/-- Embedding of `matplotlib.colors.TwoSlopeNorm(vmin, vcenter, vmax)`:
the three breakpoints of the diverging normalization. -/
structure TwoSlopeNorm where
  vmin : Int
  vcenter : Int
  vmax : Int
deriving DecidableEq, Repr

/-- The rendered figure artifact: the attributes `create_map_figure` sets
on it (normalization, colormap, overlays, colorbar label, title). -/
structure Figure where
  norm : TwoSlopeNorm
  cmap : String
  coastlines : Bool
  landFill : Bool
  gridlines : Bool
  colorbarLabel : String
  title : String
deriving DecidableEq, Repr

/-- Title date format `selected_date.strftime("%Y년 %m월 %d일")`. -/
def titleDateStr (d : PyDate) : String :=
  toString d.year ++ "년 " ++ pad2 d.month ++ "월 " ++ pad2 d.day ++ "일"

/-- Embedding of `create_map_figure(data_array, selected_date)` (lines
84-120): `None` for an absent or zero-size input, otherwise a figure with
the fixed `TwoSlopeNorm(vmin=20, vcenter=30, vmax=34)`, the `YlOrRd`
colormap, coastline and land overlays, gridlines, the unit-labelled
colorbar and the date title.  The embedding is total: the guarded branch
returns without touching the plotting backend, hence without raising. -/
def create_map_figure (data_array : Option SstSlice) (selected_date : PyDate) :
    Option Figure :=
  match data_array with
  | none => none
  | some da =>
    if da.length = 0 then none
    else
      some { norm := { vmin := 20, vcenter := 30, vmax := 34 },
             cmap := "YlOrRd",
             coastlines := true, landFill := true, gridlines := true,
             colorbarLabel := "해수면 온도 (°C)",
             title := "해수면 온도: " ++ titleDateStr selected_date }

/-! ## Date selector (sidebar) -/

/-- The lower bound passed to the widget: `datetime.date(1981, 9, 1)`. -/
def min_allowed : PyDate := ⟨1981, 9, 1⟩

/-- Embedding of `datetime.date.today() - datetime.timedelta(days=2)`
(line 126), the pre-seeded default accounting for publication lag. -/
def default_date (today : PyDate) : PyDate := dateSub today 2

/-- Modelled from the spec: the `st.sidebar.date_input` widget itself is
external UI-framework code, absent from src; per the spec the control
rejects out-of-range picks (a pick below the minimum is clamped to the
minimum, one above the maximum to the maximum) and yields the pre-seeded
default value when the user has not picked anything. -/
def date_input (userPick : Option PyDate) (value minv maxv : PyDate) : PyDate :=
  match userPick with
  | none => value
  | some p =>
    if toordinal p < toordinal minv then minv
    else if toordinal maxv < toordinal p then maxv
    else p

/-- Embedding of the sidebar wiring (lines 126-132): the widget is given
`value = default_date`, `min_value = date(1981, 9, 1)`,
`max_value = default_date`. -/
def selected_date (today : PyDate) (userPick : Option PyDate) : PyDate :=
  date_input userPick (default_date today) min_allowed (default_date today)

/-! ## Main page logic (lines 135-155) -/

/-- The branch the main logic takes after loading: render the figure (plus
subheader and preview), show the softer no-data warning `st.warning`, or
halt the run via `st.stop()`. -/
inductive MainAction where
  | rendered : Option Figure → MainAction
  | warned : MainAction
  | stopped : MainAction
deriving DecidableEq, Repr

/-- Embedding of the main page branching: `sst_data` comes from the cached
loader; a non-`None` result with positive size is rendered, a non-`None`
result of size zero yields the warning banner, and `None` reaches
`st.stop()`. -/
def mainAction (env : Env) (c : Cache) (d : PyDate) : MainAction :=
  let call := cached_load env c d
  match call.result.value with
  | some da =>
    if 0 < da.length then .rendered (create_map_figure (some da) d)
    else .warned
  | none => .stopped

/-! ## Concrete fixtures for evaluation witnesses -/

/-- Whether a fallible step succeeded. -/
def isOkE {ε α : Type} : Except ε α → Bool
  | .ok _ => true
  | .error _ => false

/-- A slice consisting solely of missing-data markers. -/
def sliceAllNaN : SstSlice := [Val.nan, Val.nan]

/-- A slice with at least one real reading. -/
def sliceGood : SstSlice := [Val.num 21, Val.nan, Val.num 30]

/-- A dataset whose selection and materialization succeed with slice `s`. -/
def dsOf (s : SstSlice) : Dataset :=
  { sel := fun _ => .ok { load := .ok s } }

/-- An environment where the primary engine open succeeds for every URL. -/
def envOk (s : SstSlice) : Env :=
  { openDS := fun _ _ => .ok (dsOf s) }

/-- An environment where both engine opens raise. -/
def envFailBoth : Env :=
  { openDS := fun _ e =>
      match e with
      | Engine.primary => .error "primary transport unavailable"
      | Engine.pydap => .error "pydap transport unavailable" }

/-- An environment where only the pydap fallback succeeds. -/
def envPrimaryFail (s : SstSlice) : Env :=
  { openDS := fun _ e =>
      match e with
      | Engine.primary => .error "primary transport unavailable"
      | Engine.pydap => .ok (dsOf s) }

/-- A sample in-range date. -/
def dJan15 : PyDate := ⟨2024, 1, 15⟩

/-! ## Helper lemmas about the loader -/

theorem load_url (env : Env) (d : PyDate) :
    (load_and_slice_data env d).url = BASE_URL d.year := by
  unfold load_and_slice_data
  rcases hf : fetch_slice env d with e | da
  · simp [hf]
  · by_cases hn : allNaN da = true <;> simp [hf, hn]

theorem load_attempts (env : Env) (d : PyDate) :
    (load_and_slice_data env d).attempts
      = (openWithFallback env (BASE_URL d.year)).2 := by
  unfold load_and_slice_data
  rcases hf : fetch_slice env d with e | da
  · simp [hf]
  · by_cases hn : allNaN da = true <;> simp [hf, hn]

theorem load_value_ok_allNaN (env : Env) (d : PyDate) (da : SstSlice)
    (hf : fetch_slice env d = .ok da) (hn : allNaN da = true) :
    (load_and_slice_data env d).value = none ∧
    (load_and_slice_data env d).errorBanner = none ∧
    (load_and_slice_data env d).infoBanner = none := by
  unfold load_and_slice_data
  simp [hf, hn]

theorem cached_load_lookup (env : Env) (c : Cache) (d : PyDate) :
    cacheLookup (cached_load env c d).cache d
      = some (cached_load env c d).result.value := by
  unfold cached_load
  rcases hl : cacheLookup c d with _ | v
  · simp [hl, cacheLookup]
  · simp [hl]

theorem cached_load_preserves (env : Env) (c : Cache) (d k : PyDate)
    (w : Option SstSlice) (h : cacheLookup c k = some w) :
    cacheLookup (cached_load env c d).cache k = some w := by
  unfold cached_load
  rcases hl : cacheLookup c d with _ | v
  · by_cases hk : d = k
    · subst hk; rw [hl] at h; exact absurd h (by simp)
    · simp [hl, cacheLookup, hk, h]
  · simp [hl, h]

theorem cached_load_hit (env : Env) (c : Cache) (d : PyDate)
    (v : Option SstSlice) (h : cacheLookup c d = some v) :
    (cached_load env c d).result.value = v ∧
    (cached_load env c d).cache = c ∧
    (cached_load env c d).fetched = false := by
  unfold cached_load
  simp [h]

/-! ## Claim theorems -/

/-- Claim C2: for every date and environment, if every value of the
materialized slice is the missing-data marker then `load_and_slice_data`
returns Absent (`None`), and it never returns a non-absent slice that is
entirely missing. -/
theorem claim_C2 (env : Env) (d : PyDate) :
    (∀ da : SstSlice, fetch_slice env d = .ok da → allNaN da = true →
        (load_and_slice_data env d).value = none) ∧
    (∀ s : SstSlice, (load_and_slice_data env d).value = some s →
        allNaN s = false) := by
  constructor
  · intro da hf hn
    exact (load_value_ok_allNaN env d da hf hn).1
  · intro s hs
    unfold load_and_slice_data at hs
    rcases hf : fetch_slice env d with e | da
    · simp [hf] at hs
    · by_cases hn : allNaN da = true
      · simp [hf, hn] at hs
      · simp [hf, hn] at hs
        simpa [hs.symm] using hn

/-- Claim C2 witness: with a remote slice of pure missing-data markers the
loader returns Absent. -/
theorem claim_C2_witness :
    (load_and_slice_data (envOk sliceAllNaN) dJan15).value = none :=
  (claim_C2 (envOk sliceAllNaN) dJan15).1 sliceAllNaN rfl rfl

/-- Claim C3: the renderer returns no figure, without reaching any
plotting call, whenever its input slice is absent or has zero elements. -/
theorem claim_C3 (d : PyDate) (da : Option SstSlice)
    (h : da = none ∨ ∃ s : SstSlice, da = some s ∧ s.length = 0) :
    create_map_figure da d = none := by
  rcases h with h | ⟨s, rfl, hlen⟩
  · subst h; rfl
  · rcases List.length_eq_zero.mp hlen with rfl
    rfl

/-- Claim C3 witness: the renderer yields no figure on the absent input
and on the concrete zero-element slice. -/
theorem claim_C3_witness :
    create_map_figure none dJan15 = none ∧
    create_map_figure (some []) dJan15 = none :=
  ⟨claim_C3 dJan15 none (Or.inl rfl),
   claim_C3 dJan15 (some []) (Or.inr ⟨[], rfl, rfl⟩)⟩

/-- Claim C5: whenever the fallible part of the pipeline (open with both
engines, variable and slice selection, materialization) raises with
description `e`, the loader emits the error banner containing `e`, emits
the network/SSL/engine hint, and returns Absent instead of propagating. -/
theorem claim_C5 (env : Env) (d : PyDate) (e : String)
    (h : fetch_slice env d = .error e) :
    (load_and_slice_data env d).value = none ∧
    (load_and_slice_data env d).errorBanner = some (errorBannerText e) ∧
    (∃ p q : String, errorBannerText e = p ++ e ++ q) ∧
    (load_and_slice_data env d).infoBanner = some infoBannerText := by
  refine ⟨?_, ?_, ⟨"데이터를 불러오는 중 오류가 발생했습니다: ", "", by simp [errorBannerText]⟩, ?_⟩ <;>
    unfold load_and_slice_data <;> simp [h]

/-- Claim C5 witness: with both transport engines failing, the loader
returns Absent and shows the error banner with the exception text plus the
hint banner. -/
theorem claim_C5_witness :
    (load_and_slice_data envFailBoth dJan15).value = none ∧
    (load_and_slice_data envFailBoth dJan15).errorBanner
      = some (errorBannerText "pydap transport unavailable") ∧
    (∃ p q : String,
        errorBannerText "pydap transport unavailable"
          = p ++ "pydap transport unavailable" ++ q) ∧
    (load_and_slice_data envFailBoth dJan15).infoBanner = some infoBannerText :=
  claim_C5 envFailBoth dJan15 "pydap transport unavailable" rfl

/-- Claim C6: every figure the renderer produces carries the fixed
diverging normalization with breakpoints 20, 30, 34; the center is not the
midpoint of the range; and the normalization never depends on the slice or
date (no autoscaling to the data). -/
theorem claim_C6 :
    (∀ (da : Option SstSlice) (d : PyDate) (fig : Figure),
        create_map_figure da d = some fig →
          fig.norm = { vmin := 20, vcenter := 30, vmax := 34 } ∧
          fig.norm.vcenter ≠ (fig.norm.vmin + fig.norm.vmax) / 2) ∧
    (∀ (da1 : Option SstSlice) (d1 : PyDate) (da2 : Option SstSlice)
        (d2 : PyDate) (f1 f2 : Figure),
        create_map_figure da1 d1 = some f1 →
        create_map_figure da2 d2 = some f2 → f1.norm = f2.norm) := by
  have key : ∀ (da : Option SstSlice) (d : PyDate) (fig : Figure),
      create_map_figure da d = some fig →
        fig.norm = { vmin := 20, vcenter := 30, vmax := 34 } := by
    intro da d fig h
    rcases da with _ | s
    · simp [create_map_figure] at h
    · by_cases hlen : s.length = 0
      · simp [create_map_figure, hlen] at h
      · simp [create_map_figure, hlen] at h
        rw [← h]
  refine ⟨fun da d fig h => ⟨key da d fig h, ?_⟩, fun da1 d1 da2 d2 f1 f2 h1 h2 => ?_⟩
  · rw [key da d fig h]; decide
  · rw [key da1 d1 f1 h1, key da2 d2 f2 h2]

/-- Claim C6 witness: the figure rendered for a concrete slice carries
exactly the 20 / 30 / 34 normalization, whose center is off-midpoint. -/
theorem claim_C6_witness :
    ({ norm := { vmin := 20, vcenter := 30, vmax := 34 },
       cmap := "YlOrRd", coastlines := true, landFill := true,
       gridlines := true, colorbarLabel := "해수면 온도 (°C)",
       title := "해수면 온도: " ++ titleDateStr dJan15 } : Figure).norm
        = { vmin := 20, vcenter := 30, vmax := 34 } ∧
    ({ norm := { vmin := 20, vcenter := 30, vmax := 34 },
       cmap := "YlOrRd", coastlines := true, landFill := true,
       gridlines := true, colorbarLabel := "해수면 온도 (°C)",
       title := "해수면 온도: " ++ titleDateStr dJan15 } : Figure).norm.vcenter
        ≠ (20 + 34) / 2 :=
  claim_C6.1 (some sliceGood) dJan15 _ rfl

/-- Claim C9: the data-source URL is derived from the year alone through
the fixed template, and two dates sharing a calendar year yield the same
URL. -/
theorem claim_C9 (env : Env) (d d1 d2 : PyDate) (h : d1.year = d2.year) :
    (load_and_slice_data env d).url
      = "https://psl.noaa.gov/thredds/dodsC/Datasets/noaa.oisst.v2.highres/sst.day.mean."
          ++ toString d.year ++ ".nc" ∧
    (load_and_slice_data env d1).url = (load_and_slice_data env d2).url := by
  constructor
  · rw [load_url]; rfl
  · rw [load_url, load_url, BASE_URL, BASE_URL, h]

/-- Claim C9 witness: January 15 and December 31 of 2024 resolve to the
same yearly URL, of the templated form. -/
theorem claim_C9_witness :
    (load_and_slice_data envFailBoth dJan15).url
      = "https://psl.noaa.gov/thredds/dodsC/Datasets/noaa.oisst.v2.highres/sst.day.mean."
          ++ toString (2024 : Int) ++ ".nc" ∧
    (load_and_slice_data envFailBoth dJan15).url
      = (load_and_slice_data envFailBoth ⟨2024, 12, 31⟩).url :=
  claim_C9 envFailBoth dJan15 dJan15 ⟨2024, 12, 31⟩ rfl

/-- Claim C4: every load first attempts the primary engine; the attempt
list never exceeds two entries; a successful primary open ends the
attempts there, and a failed primary open is followed by exactly one
pydap attempt (whatever its outcome), with no further retries. -/
theorem claim_C4 (env : Env) (d : PyDate) :
    ((load_and_slice_data env d).attempts).take 1 = [Engine.primary] ∧
    ((load_and_slice_data env d).attempts).length ≤ 2 ∧
    (isOkE (env.openDS (BASE_URL d.year) Engine.primary) = true →
        (load_and_slice_data env d).attempts = [Engine.primary]) ∧
    (isOkE (env.openDS (BASE_URL d.year) Engine.primary) = false →
        (load_and_slice_data env d).attempts
          = [Engine.primary, Engine.pydap]) := by
  rw [load_attempts]
  unfold openWithFallback
  rcases ho : env.openDS (BASE_URL d.year) Engine.primary with e | ds
  · rcases h2 : env.openDS (BASE_URL d.year) Engine.pydap with e2 | ds2 <;>
      simp [isOkE]
  · simp [isOkE]

/-- Claim C4 witness: with a failing primary engine the loader attempts
exactly the primary engine then the pydap fallback. -/
theorem claim_C4_witness :
    (load_and_slice_data envFailBoth dJan15).attempts
      = [Engine.primary, Engine.pydap] :=
  (claim_C4 envFailBoth dJan15).2.2.2 rfl

/-- Claim C7: a second cached call with the same date runs the body (the
remote fetch) zero times and returns the same value as the first call; at
most one fetch happens across the two calls; and no existing cache entry
is ever evicted by a call. -/
theorem claim_C7 (env : Env) (c : Cache) (d : PyDate) :
    (cached_load env (cached_load env c d).cache d).fetched = false ∧
    (cached_load env (cached_load env c d).cache d).result.value
      = (cached_load env c d).result.value ∧
    (cond (cached_load env c d).fetched 1 0)
      + (cond (cached_load env (cached_load env c d).cache d).fetched 1 0)
        ≤ 1 ∧
    (∀ (k : PyDate) (w : Option SstSlice), cacheLookup c k = some w →
        cacheLookup (cached_load env c d).cache k = some w) := by
  have hl := cached_load_lookup env c d
  have hhit := cached_load_hit env (cached_load env c d).cache d _ hl
  refine ⟨hhit.2.2, hhit.1, ?_,
    fun k w hw => cached_load_preserves env c d k w hw⟩
  rw [hhit.2.2]
  cases (cached_load env c d).fetched <;> simp

/-- Claim C7 witness: starting from the empty session cache, a repeated
load of the same date serves the cached value without fetching. -/
theorem claim_C7_witness :
    (cached_load (envOk sliceGood)
        (cached_load (envOk sliceGood) [] dJan15).cache dJan15).fetched
      = false ∧
    (cached_load (envOk sliceGood)
        (cached_load (envOk sliceGood) [] dJan15).cache dJan15).result.value
      = (cached_load (envOk sliceGood) [] dJan15).result.value := by
  have h := claim_C7 (envOk sliceGood) [] dJan15
  exact ⟨h.1, h.2.1⟩

theorem absent_stays (d : PyDate) :
    ∀ (reqs : List (Env × PyDate)) (c : Cache),
      cacheLookup c d = some none →
      ∀ p ∈ run_session reqs c, p.1 = d →
        p.2.result.value = none ∧ p.2.fetched = false := by
  intro reqs
  induction reqs with
  | nil =>
    intro c _ p hp
    simp [run_session] at hp
  | cons hd tl ih =>
    intro c hc p hp hpd
    obtain ⟨env1, d1⟩ := hd
    simp only [run_session, List.mem_cons] at hp
    rcases hp with rfl | hp
    · dsimp only at hpd
      subst hpd
      have hhit := cached_load_hit env1 c d1 none hc
      exact ⟨hhit.1, hhit.2.2⟩
    · have hc2 : cacheLookup (cached_load env1 c d1).cache d = some none :=
        cached_load_preserves env1 c d1 d none hc
      exact ih (cached_load env1 c d1).cache hc2 p hp hpd

/-- Claim C10: once a load of date `d` returns Absent — by exception or by
the all-missing check — the Absent value is cached, and every later call
for `d` in the session, under any later environment (even one where the
failure cause has cleared), serves Absent from the cache without running
the fetch again. -/
theorem claim_C10 (env : Env) (c : Cache) (d : PyDate)
    (later : List (Env × PyDate))
    (h : (cached_load env c d).result.value = none) :
    ∀ p ∈ run_session later (cached_load env c d).cache, p.1 = d →
      p.2.result.value = none ∧ p.2.fetched = false := by
  have hl : cacheLookup (cached_load env c d).cache d = some none := by
    rw [cached_load_lookup env c d, h]
  exact absent_stays d later (cached_load env c d).cache hl

/-- Claim C10 witness: a transport failure caches Absent; a later run of
the same date against a now-healthy remote still yields Absent without
fetching. -/
theorem claim_C10_witness :
    (cached_load (envOk sliceGood)
        (cached_load envFailBoth [] dJan15).cache dJan15).result.value
      = none ∧
    (cached_load (envOk sliceGood)
        (cached_load envFailBoth [] dJan15).cache dJan15).fetched = false :=
  claim_C10 envFailBoth [] dJan15 [(envOk sliceGood, dJan15)] rfl
    (dJan15, cached_load (envOk sliceGood)
        (cached_load envFailBoth [] dJan15).cache dJan15)
    (List.Mem.head _) rfl

/-- Claim C8: provided the computed maximum (today minus two days) does
not precede the dataset start 1981-09-01, every value the selector yields
lies in the range from 1981-09-01 to today minus two days — out-of-range
picks cannot get through — and the default is pre-seeded to today minus
two days. -/
theorem claim_C8 (today : PyDate) (userPick : Option PyDate)
    (h : toordinal min_allowed ≤ toordinal (default_date today)) :
    toordinal min_allowed ≤ toordinal (selected_date today userPick) ∧
    toordinal (selected_date today userPick)
      ≤ toordinal (default_date today) ∧
    selected_date today none = default_date today ∧
    default_date today = dateSub today 2 := by
  refine ⟨?_, ?_, rfl, rfl⟩
  · unfold selected_date date_input
    rcases userPick with _ | p
    · exact h
    · dsimp only
      by_cases h1 : toordinal p < toordinal min_allowed
      · simp [h1]
      · by_cases h2 : toordinal (default_date today) < toordinal p
        · simpa [h1, h2] using h
        · simp only [h1, h2, if_false]
          omega
  · unfold selected_date date_input
    rcases userPick with _ | p
    · exact le_refl _
    · dsimp only
      by_cases h1 : toordinal p < toordinal min_allowed
      · simpa [h1] using h
      · by_cases h2 : toordinal (default_date today) < toordinal p
        · simp [h1, h2]
        · simp only [h1, h2, if_false]
          omega

/-- Claim C8 witness: on 2026-10-12 an out-of-range pick of 1970-01-01 is
kept inside the range from 1981-09-01 to 2026-10-10, and the default is
two days before today. -/
theorem claim_C8_witness :
    toordinal min_allowed
      ≤ toordinal (selected_date ⟨2026, 10, 12⟩ (some ⟨1970, 1, 1⟩)) ∧
    toordinal (selected_date ⟨2026, 10, 12⟩ (some ⟨1970, 1, 1⟩))
      ≤ toordinal (default_date ⟨2026, 10, 12⟩) ∧
    selected_date ⟨2026, 10, 12⟩ none = default_date ⟨2026, 10, 12⟩ ∧
    default_date ⟨2026, 10, 12⟩ = dateSub ⟨2026, 10, 12⟩ 2 :=
  claim_C8 ⟨2026, 10, 12⟩ (some ⟨1970, 1, 1⟩) (by decide)

/-- Claim C1 counterexample: for a valid date whose slice materializes as
all-NaN (fetch succeeds), the page run takes the halt path `st.stop`, not
the softer warning branch, though no error banner is emitted either: the
claim that the warning banner is produced fails at this input. -/
theorem claim_C1_counterexample :
    mainAction (envOk sliceAllNaN) [] dJan15 = MainAction.stopped ∧
    MainAction.stopped ≠ MainAction.warned ∧
    (load_and_slice_data (envOk sliceAllNaN) dJan15).errorBanner = none := by
  exact ⟨rfl, by decide, rfl⟩

/-- Claim C1 (amended): for every valid date whose materialized slice is
all-NaN, the loader returns Absent through the empty-result path with no
error banner and no info hint; the main logic then halts through the
`st.stop` path — the same observable path as a transport failure — and
the softer no-data warning is not shown. -/
theorem claim_C1 (env : Env) (c : Cache) (d : PyDate) (da : SstSlice)
    (hmiss : cacheLookup c d = none)
    (hf : fetch_slice env d = .ok da) (hn : allNaN da = true) :
    (load_and_slice_data env d).value = none ∧
    (load_and_slice_data env d).errorBanner = none ∧
    (load_and_slice_data env d).infoBanner = none ∧
    mainAction env c d = MainAction.stopped ∧
    mainAction env c d ≠ MainAction.warned := by
  have hload := load_value_ok_allNaN env d da hf hn
  have hmain : mainAction env c d = MainAction.stopped := by
    unfold mainAction cached_load
    simp [hmiss, hload.1]
  refine ⟨hload.1, hload.2.1, hload.2.2, hmain, ?_⟩
  rw [hmain]
  decide

/-- Claim C1 witness: a fresh session whose remote (reached through the
pydap fallback) serves an all-NaN slice ends in the halt path with no
banners. -/
theorem claim_C1_witness :
    (load_and_slice_data (envPrimaryFail sliceAllNaN) dJan15).value = none ∧
    (load_and_slice_data (envPrimaryFail sliceAllNaN) dJan15).errorBanner
      = none ∧
    (load_and_slice_data (envPrimaryFail sliceAllNaN) dJan15).infoBanner
      = none ∧
    mainAction (envPrimaryFail sliceAllNaN) [] dJan15
      = MainAction.stopped ∧
    mainAction (envPrimaryFail sliceAllNaN) [] dJan15
      ≠ MainAction.warned :=
  claim_C1 (envPrimaryFail sliceAllNaN) [] dJan15 sliceAllNaN rfl rfl rfl

end SstApp
